import Mathlib

/-
Verification of the Citadel event-distribution layer.

This file gives a shallow embedding of the Citadel repository modules
  src/citadel_frontend/protocol/ag_ui.py      (event model: EventType, BaseEvent)
  src/citadel_frontend/protocol/transport.py  (SSE and WebSocket inbound decoding)
  src/citadel_frontend/protocol/events.py     (EventBus publish/subscribe)
  src/citadel_api/routes/agent.py             (workflow routes, emit, streaming loop)
and proves properties of the embedded definitions.

Python values that are JSON-compatible are modelled by the inductive type
JValue; Python dicts are association lists in insertion order.  Machine
integers in the sources (timestamps) are unbounded Python ints, so they are
modelled by Int directly.  Fallible Python code (raising exceptions) is
modelled with Except, the exception classes by the PyErr type.
-/

namespace Citadel

/-- JSON-compatible Python values: None, bool, int, str, list, dict.
Dicts are association lists keeping insertion order, as Python dicts do. -/
inductive JValue where
  | null : JValue
  | bool (b : Bool) : JValue
  | num (n : Int) : JValue
  | str (s : String) : JValue
  | arr (elems : List JValue) : JValue
  | obj (fields : List (String × JValue)) : JValue

/-- Python exception classes raised by the embedded code.  JSONDecodeError is
the class caught by the transports; ValueError (raised by the EventType enum
constructor on an unrecognized value), KeyError and TypeError are distinct
classes not caught by an except clause naming json.JSONDecodeError only. -/
inductive PyErr where
  | jsonDecodeError : PyErr
  | valueError (msg : String) : PyErr
  | keyError (key : String) : PyErr
  | typeError (msg : String) : PyErr
deriving DecidableEq

/-- EventType from src/citadel_frontend/protocol/ag_ui.py: the closed
enumeration of AG-UI event kinds. -/
inductive EventType where
  | RUN_STARTED | RUN_FINISHED
  | TEXT_MESSAGE_START | TEXT_MESSAGE_CONTENT | TEXT_MESSAGE_END
  | TOOL_CALL_START | TOOL_CALL_ARGS | TOOL_CALL_END
  | STATE_SNAPSHOT | STATE_DELTA | MESSAGES_SNAPSHOT
  | ERROR | STATUS_UPDATE
  | THINKING_START | THINKING_END | AGENT_CHANGE
deriving DecidableEq

/-- The value attribute of each EventType member (the enum is a string enum:
every member value equals the member name). -/
def EventType.value : EventType → String
  | .RUN_STARTED => "RUN_STARTED"
  | .RUN_FINISHED => "RUN_FINISHED"
  | .TEXT_MESSAGE_START => "TEXT_MESSAGE_START"
  | .TEXT_MESSAGE_CONTENT => "TEXT_MESSAGE_CONTENT"
  | .TEXT_MESSAGE_END => "TEXT_MESSAGE_END"
  | .TOOL_CALL_START => "TOOL_CALL_START"
  | .TOOL_CALL_ARGS => "TOOL_CALL_ARGS"
  | .TOOL_CALL_END => "TOOL_CALL_END"
  | .STATE_SNAPSHOT => "STATE_SNAPSHOT"
  | .STATE_DELTA => "STATE_DELTA"
  | .MESSAGES_SNAPSHOT => "MESSAGES_SNAPSHOT"
  | .ERROR => "ERROR"
  | .STATUS_UPDATE => "STATUS_UPDATE"
  | .THINKING_START => "THINKING_START"
  | .THINKING_END => "THINKING_END"
  | .AGENT_CHANGE => "AGENT_CHANGE"

/-- The EventType enum call EventType(s): the member whose value is s, or
none when no member matches (Python raises ValueError in that case). -/
def EventType.ofString : String → Option EventType
  | "RUN_STARTED" => some .RUN_STARTED
  | "RUN_FINISHED" => some .RUN_FINISHED
  | "TEXT_MESSAGE_START" => some .TEXT_MESSAGE_START
  | "TEXT_MESSAGE_CONTENT" => some .TEXT_MESSAGE_CONTENT
  | "TEXT_MESSAGE_END" => some .TEXT_MESSAGE_END
  | "TOOL_CALL_START" => some .TOOL_CALL_START
  | "TOOL_CALL_ARGS" => some .TOOL_CALL_ARGS
  | "TOOL_CALL_END" => some .TOOL_CALL_END
  | "STATE_SNAPSHOT" => some .STATE_SNAPSHOT
  | "STATE_DELTA" => some .STATE_DELTA
  | "MESSAGES_SNAPSHOT" => some .MESSAGES_SNAPSHOT
  | "ERROR" => some .ERROR
  | "STATUS_UPDATE" => some .STATUS_UPDATE
  | "THINKING_START" => some .THINKING_START
  | "THINKING_END" => some .THINKING_END
  | "AGENT_CHANGE" => some .AGENT_CHANGE
  | _ => none

/-- BaseEvent from src/citadel_frontend/protocol/ag_ui.py: a dataclass with
an EventType field and a payload dict (default empty).  The payload is typed
JValue because Python never checks the annotation Dict at runtime. -/
structure BaseEvent where
  type : EventType
  payload : JValue := .obj []

/-- BaseEvent.to_dict: asdict(self) lists the fields in declaration order
(type, then payload), after which result["type"] is replaced by the string
value of the enum member. -/
def BaseEvent.to_dict (e : BaseEvent) : JValue :=
  .obj [("type", .str e.type.value), ("payload", e.payload)]

/-- BaseEvent.from_dict: event_type = EventType(data["type"]) followed by
payload = data.get("payload", \x7b\x7d).  Subscripting a non-dict raises
TypeError, a missing "type" key raises KeyError, and an unrecognized type
value raises ValueError from the enum constructor. -/
def BaseEvent.from_dict : JValue → Except PyErr BaseEvent
  | .obj fields =>
    match fields.lookup "type" with
    | some (.str s) =>
      match EventType.ofString s with
      | some ty => .ok { type := ty, payload := (fields.lookup "payload").getD (.obj []) }
      | none => .error (.valueError (s ++ " is not a valid EventType"))
    | some _ => .error (.valueError "value is not a valid EventType")
    | none => .error (.keyError "type")
  | _ => .error (.typeError "value is not subscriptable by string key")

/-- Wire text on a transport, modelled by its parse outcome: every byte
string either is valid JSON text denoting exactly one JValue tree, or is
malformed.  The Python standard library json module (external to this
repository) maps each tree to a valid text and parses that text back to the
same tree, so valid texts are identified with their trees here. -/
inductive Wire where
  | jsonText (v : JValue) : Wire
  | malformedText (raw : String) : Wire

/-- The call json.dumps(tree): always produces valid JSON text denoting the
given tree (standard library behavior, external to the repository). -/
def json_dumps (v : JValue) : Wire := .jsonText v

/-- The call json.loads(text): returns the denoted tree for valid JSON text
and raises json.JSONDecodeError for malformed text. -/
def json_loads : Wire → Except PyErr JValue
  | .jsonText v => .ok v
  | .malformedText _ => .error .jsonDecodeError

/-- BaseEvent.to_json: json.dumps(self.to_dict()). -/
def BaseEvent.to_json (e : BaseEvent) : Wire :=
  json_dumps e.to_dict

/-- BaseEvent.from_json: cls.from_dict(json.loads(json_str)). -/
def BaseEvent.from_json (w : Wire) : Except PyErr BaseEvent := do
  let data ← json_loads w
  BaseEvent.from_dict data

/-- One line of an SSE stream after .strip(): blank, a non-data line, or a
line of the form data: followed by wire text. -/
inductive SSELine where
  | blank : SSELine
  | comment (s : String) : SSELine
  | dataLine (w : Wire) : SSELine

/-- SSETransport.receive_events over a finished inbound line sequence: blank
and non-data lines are skipped; on a data line, json.loads runs inside a try
whose except clause names json.JSONDecodeError only, so malformed JSON is
skipped, while any error raised by BaseEvent.from_dict (ValueError on an
unrecognized kind, KeyError, TypeError) escapes the generator and ends the
stream with that error. -/
def SSETransport.receive_events : List SSELine → Except PyErr (List BaseEvent)
  | [] => .ok []
  | .blank :: rest => SSETransport.receive_events rest
  | .comment _ :: rest => SSETransport.receive_events rest
  | .dataLine w :: rest =>
    match json_loads w with
    | .ok v =>
      match BaseEvent.from_dict v with
      | .ok e => (SSETransport.receive_events rest).map (fun es => e :: es)
      | .error err => .error err
    | .error _ => SSETransport.receive_events rest

/-- WebSocketTransport.receive_events over the frames received before the
peer closed the connection: BaseEvent.from_json runs inside a try whose
except clause names json.JSONDecodeError only, so a malformed frame is
skipped, while an error raised by from_dict on valid JSON escapes and ends
the stream; exhaustion of the frame list is the clean ConnectionClosed
termination. -/
def WebSocketTransport.receive_events : List Wire → Except PyErr (List BaseEvent)
  | [] => .ok []
  | w :: rest =>
    match BaseEvent.from_json w with
    | .ok e => (WebSocketTransport.receive_events rest).map (fun es => e :: es)
    | .error .jsonDecodeError => WebSocketTransport.receive_events rest
    | .error err => .error err

/-- Subscriber filter of the EventBus in
src/citadel_frontend/protocol/events.py: the Python value passed for
event_types, either None (all kinds) or a set instance of kinds.  A set is
modelled by the list of its members. -/
abbrev Filter := Option (List EventType)

/-- State of one EventBus: the subscribers dict (registry buckets in
insertion order, each a filter key with its list of queues, queues named by
identity tokens) plus the contents of every queue and a fresh-token
counter. -/
structure EventBusState where
  subscribers : List (Filter × List Nat)
  queues : List (Nat × List BaseEvent)
  nextId : Nat

/-- A Python dict key must be hashable: None is hashable, a set instance is
not, so using a set as a key in the subscribers dict raises TypeError
(unhashable type) at the membership test. -/
def filterHashable : Filter → Bool
  | none => true
  | some _ => false

/-- Appends a queue token under a filter key of the subscribers dict: the
existing bucket is extended, or a new key is inserted at the end (Python
dicts append new keys in insertion order). -/
def addToBucket (key : Filter) (qid : Nat) : List (Filter × List Nat) → List (Filter × List Nat)
  | [] => [(key, [qid])]
  | (k, qs) :: rest =>
    if k = key then (k, qs ++ [qid]) :: rest else (k, qs) :: addToBucket key qid rest

/-- EventBus.subscribe: creates a fresh queue, then evaluates the membership
test event_types not in self.subscribers — which raises TypeError when the
key is an unhashable set — and otherwise registers the queue under the key
and returns the consumer handle (here the queue token). -/
def EventBus.subscribe (event_types : Filter) (st : EventBusState) :
    Except PyErr (EventBusState × Nat) :=
  if filterHashable event_types then
    let qid := st.nextId
    .ok ({ subscribers := addToBucket event_types qid st.subscribers,
           queues := st.queues ++ [(qid, [])],
           nextId := qid + 1 }, qid)
  else
    .error (.typeError "unhashable type: set")

/-- The filter test of EventBus.publish: event_types is None or event.type
in event_types. -/
def filterMatches (key : Filter) (ty : EventType) : Bool :=
  match key with
  | none => true
  | some kinds => kinds.contains ty

/-- EventBus.publish: for every registry bucket whose filter matches the
event kind, the event is appended to every queue of the bucket. -/
def EventBus.publish (e : BaseEvent) (st : EventBusState) : EventBusState :=
  let ids := (st.subscribers.filter (fun kv => filterMatches kv.1 e.type)).flatMap Prod.snd
  { st with queues := st.queues.map (fun kv => if ids.contains kv.1 then (kv.1, kv.2 ++ [e]) else kv) }

/-- The loop body of EventBus.unsubscribe: the first bucket containing the
queue of the consumer has that queue removed, the bucket is deleted when it
becomes empty, and the loop breaks. -/
def removeFromBuckets (qid : Nat) : List (Filter × List Nat) → List (Filter × List Nat)
  | [] => []
  | (k, qs) :: rest =>
    if qs.contains qid then
      let qs2 := qs.erase qid
      if qs2.isEmpty then rest else (k, qs2) :: rest
    else (k, qs) :: removeFromBuckets qid rest

/-- EventBus.unsubscribe applied to a consumer holding the given queue. -/
def EventBus.unsubscribe (qid : Nat) (st : EventBusState) : EventBusState :=
  { st with subscribers := removeFromBuckets qid st.subscribers }

/-- An EventBus as constructed by EventBus.__init__: empty subscribers
dict. -/
def emptyBus : EventBusState := { subscribers := [], queues := [], nextId := 0 }

/-
Embedding of src/citadel_api/routes/agent.py.  Workflow ids (UUIDs) are
modelled as strings, subscriber queues by identity tokens.  The module-level
dicts active_workflows and event_queues form the ApiState.  Awaited calls on
the external engine object (submit_action, submit_feedback, cancel) are
modelled by an Except String Unit argument giving the engine outcome, and
the clock by an Int argument holding the millisecond timestamp.
-/

/-- One entry of active_workflows: the mutable per-workflow record with its
status string, config, input, optional result and optional error (the
engine handle is external and carries no state of its own here). -/
structure WorkflowData where
  status : String
  config : JValue := .obj []
  input : JValue := .obj []
  result : Option JValue := none
  error : Option String := none

/-- The wire event dict built by _emit_event and by the subscription
endpoint: workflow_id, event_type, timestamp and data fields. -/
structure WireEvent where
  workflow_id : String
  event_type : String
  timestamp : Int
  data : JValue

/-- The module-level mutable state of the routes: the active_workflows dict,
the event_queues dict (per workflow, the list of subscriber queues with
their contents), and a fresh-token counter naming queue objects. -/
structure ApiState where
  active_workflows : List (String × WorkflowData)
  event_queues : List (String × List (Nat × List WireEvent))
  nextQueueId : Nat

/-- The HTTPException raised by a route: status code and detail string. -/
structure HTTPError where
  status_code : Nat
  detail : String
deriving DecidableEq

/-- The WorkflowResponse model returned by the routes. -/
structure WorkflowResponse where
  workflow_id : String
  status : String
  message : String
deriving DecidableEq

/-- Status of a workflow in the registry, when present. -/
def statusOf (st : ApiState) (workflow_id : String) : Option String :=
  (st.active_workflows.lookup workflow_id).map WorkflowData.status

/-- The queue list registered for a workflow id, when present. -/
def bucketOf (st : ApiState) (workflow_id : String) : Option (List (Nat × List WireEvent)) :=
  st.event_queues.lookup workflow_id

/-- The queue tokens registered for a workflow id (empty when the id is
absent). -/
def queueIdsOf (st : ApiState) (workflow_id : String) : List Nat :=
  ((bucketOf st workflow_id).getD []).map Prod.fst

/-- Contents of one subscriber queue, when the id and queue exist. -/
def queueContents (st : ApiState) (workflow_id : String) (qid : Nat) : Option (List WireEvent) :=
  match bucketOf st workflow_id with
  | none => none
  | some qs => qs.lookup qid

/-- Function _emit_event: returns at once when the workflow id has no entry
in event_queues; otherwise builds the event dict once and puts it into
every subscriber queue of that workflow.  The workflow status is never
consulted. -/
def emit_event (workflow_id : String) (event_type : String) (data : JValue) (now : Int)
    (st : ApiState) : ApiState :=
  match st.event_queues.lookup workflow_id with
  | none => st
  | some _ =>
    let ev : WireEvent :=
      { workflow_id := workflow_id, event_type := event_type, timestamp := now, data := data }
    { st with
      event_queues := st.event_queues.map (fun kv =>
        if kv.1 = workflow_id then (kv.1, kv.2.map (fun q => (q.1, q.2 ++ [ev]))) else kv) }

/-- An engine-native event as received by the on_event callback: a dict read
with event.get("type", "unknown"), event.get("timestamp") and
event.get("data", \x7b\x7d). -/
structure EngineEvent where
  type : Option String := none
  timestamp : Option Int := none
  data : Option JValue := none

/-- Serialization of an optional int by pydantic dict(): None becomes JSON
null. -/
def optIntToJ : Option Int → JValue
  | none => .null
  | some n => .num n

/-- Function _handle_workflow_event: wraps the engine event into an
AgentEventResponse and emits its dict to all subscribers via _emit_event,
with no check of the workflow status (late events after a terminal state
are forwarded like any other). -/
def handle_workflow_event (workflow_id : String) (event : EngineEvent) (now : Int)
    (st : ApiState) : ApiState :=
  let event_type := event.type.getD "unknown"
  let respDict : JValue := .obj
    [("workflow_id", .str workflow_id),
     ("event_type", .str event_type),
     ("timestamp", optIntToJ event.timestamp),
     ("data", event.data.getD (.obj []))]
  emit_event workflow_id event_type respDict now st

/-- Route submit_agent_action: 404 when the id is unknown; 400 when the
status is outside running and waiting_for_input, raised before the engine is
called so no event is emitted and no field changes; otherwise the engine
call outcome decides between a 500 and the action_submitted event plus a
success response. -/
def submit_agent_action (workflow_id : String) (action_type : String) (action_data : JValue)
    (engine : Except String Unit) (now : Int) (st : ApiState) :
    Except HTTPError (WorkflowResponse × ApiState) :=
  match st.active_workflows.lookup workflow_id with
  | none => .error ⟨404, "Workflow " ++ workflow_id ++ " not found"⟩
  | some wd =>
    if wd.status = "running" ∨ wd.status = "waiting_for_input" then
      match engine with
      | .error e => .error ⟨500, e⟩
      | .ok _ =>
        let st2 := emit_event workflow_id "action_submitted"
          (.obj [("action_type", .str action_type), ("action_data", action_data)]) now st
        .ok (⟨workflow_id, wd.status, "Action submitted successfully"⟩, st2)
    else
      .error ⟨400, "Workflow is in " ++ wd.status ++ " state and cannot receive actions"⟩

/-- Route submit_agent_feedback: 404 when the id is unknown; there is no
status precondition in the source, so the engine is called from any state,
and on success the feedback_submitted event is emitted and a success
response returned. -/
def submit_agent_feedback (workflow_id : String) (feedback_type : String) (feedback_data : JValue)
    (engine : Except String Unit) (now : Int) (st : ApiState) :
    Except HTTPError (WorkflowResponse × ApiState) :=
  match st.active_workflows.lookup workflow_id with
  | none => .error ⟨404, "Workflow " ++ workflow_id ++ " not found"⟩
  | some wd =>
    match engine with
    | .error e => .error ⟨500, e⟩
    | .ok _ =>
      let st2 := emit_event workflow_id "feedback_submitted"
        (.obj [("feedback_type", .str feedback_type), ("feedback_data", feedback_data)]) now st
      .ok (⟨workflow_id, wd.status, "Feedback submitted successfully"⟩, st2)

/-- In-place status assignment workflow_data["status"] = s on the registry
entry of the given id. -/
def setStatus (workflow_id : String) (s : String) (st : ApiState) : ApiState :=
  { st with
    active_workflows := st.active_workflows.map (fun kv =>
      if kv.1 = workflow_id then (kv.1, { kv.2 with status := s }) else kv) }

/-- Route cancel_workflow: 404 when the id is unknown; otherwise the engine
cancel is always invoked (there is no terminal-state check in the source);
a raising engine yields a 500 with the state untouched, a succeeding one
sets the status to cancelled, emits the cancelled event and returns a
success response. -/
def cancel_workflow (workflow_id : String) (engineCancel : Except String Unit) (now : Int)
    (st : ApiState) : Except HTTPError (WorkflowResponse × ApiState) :=
  match st.active_workflows.lookup workflow_id with
  | none => .error ⟨404, "Workflow " ++ workflow_id ++ " not found"⟩
  | some _ =>
    match engineCancel with
    | .error e => .error ⟨500, e⟩
    | .ok _ =>
      let st1 := setStatus workflow_id "cancelled" st
      let st2 := emit_event workflow_id "cancelled" (.obj [("status", .str "cancelled")]) now st1
      .ok (⟨workflow_id, "cancelled", "Workflow cancelled successfully"⟩, st2)

/-- Registration step of the subscription route: the fresh empty queue is
appended to the event_queues bucket of the workflow, the bucket being
created first when absent. -/
def addQueue (workflow_id : String) (qid : Nat) (st : ApiState) : ApiState :=
  match st.event_queues.lookup workflow_id with
  | none => { st with event_queues := st.event_queues ++ [(workflow_id, [(qid, [])])] }
  | some _ =>
    { st with
      event_queues := st.event_queues.map (fun kv =>
        if kv.1 = workflow_id then (kv.1, kv.2 ++ [(qid, [])]) else kv) }

/-- The put of one wire event into one named subscriber queue. -/
def putToQueue (workflow_id : String) (qid : Nat) (ev : WireEvent) (st : ApiState) : ApiState :=
  { st with
    event_queues := st.event_queues.map (fun kv =>
      if kv.1 = workflow_id then
        (kv.1, kv.2.map (fun q => if q.1 = qid then (q.1, q.2 ++ [ev]) else q))
      else kv) }

/-- Route subscribe_to_workflow_events up to the return of the streaming
response: 404 when the id is unknown; otherwise a fresh queue is created,
registered, and the synthetic connection_established event carrying the
current status is put into it. -/
def subscribe_to_workflow_events (workflow_id : String) (now : Int) (st : ApiState) :
    Except HTTPError (Nat × ApiState) :=
  match st.active_workflows.lookup workflow_id with
  | none => .error ⟨404, "Workflow " ++ workflow_id ++ " not found"⟩
  | some wd =>
    let qid := st.nextQueueId
    let st1 := addQueue workflow_id qid { st with nextQueueId := qid + 1 }
    let connEv : WireEvent :=
      ⟨workflow_id, "connection_established", now, .obj [("status", .str wd.status)]⟩
    .ok (qid, putToQueue workflow_id qid connEv st1)

/-- One iteration of the event_generator loop, decided by the environment:
the disconnect check fires, the one-second queue wait is interrupted by an
exception, or the wait runs (delivering the head event when the queue is
nonempty, a keepalive on timeout when it is empty). -/
inductive LoopStep where
  | disconnectNow : LoopStep
  | raiseErr (msg : String) : LoopStep
  | poll : LoopStep

/-- Output frames of the generator: one data frame per delivered event, one
keepalive comment per timeout. -/
inductive SSEOut where
  | dataFrame (ev : WireEvent) : SSEOut
  | keepalive : SSEOut

/-- The queue.get() step: removes and returns the head of the named queue
when nonempty. -/
def popQueue (workflow_id : String) (qid : Nat) (st : ApiState) : Option WireEvent × ApiState :=
  match queueContents st workflow_id qid with
  | some (ev :: _) =>
    (some ev,
     { st with
       event_queues := st.event_queues.map (fun kv =>
         if kv.1 = workflow_id then
           (kv.1, kv.2.map (fun q => if q.1 = qid then (q.1, q.2.drop 1) else q))
         else kv) })
  | _ => (none, st)

/-- The while loop of event_generator: exits on disconnect or on a raised
exception, and otherwise yields a data frame or keepalive per poll;
exhausting the step trace models the generator being suspended and then
finalized from outside. -/
def event_generator_loop (workflow_id : String) (qid : Nat) :
    List LoopStep → ApiState → List SSEOut × ApiState
  | [], st => ([], st)
  | .disconnectNow :: _, st => ([], st)
  | .raiseErr _ :: _, st => ([], st)
  | .poll :: rest, st =>
    match popQueue workflow_id qid st with
    | (some ev, st2) =>
      let r := event_generator_loop workflow_id qid rest st2
      (.dataFrame ev :: r.1, r.2)
    | (none, st2) =>
      let r := event_generator_loop workflow_id qid rest st2
      (.keepalive :: r.1, r.2)

/-- The list.remove call of the finally block: removes the first queue with
the given identity. -/
def removeFirstQueue (qid : Nat) : List (Nat × List WireEvent) → List (Nat × List WireEvent)
  | [] => []
  | q :: rest => if q.1 = qid then rest else q :: removeFirstQueue qid rest

/-- The finally block of event_generator: when the workflow id still has a
bucket and the queue is still in it, the queue is removed from the
bucket. -/
def generator_cleanup (workflow_id : String) (qid : Nat) (st : ApiState) : ApiState :=
  match st.event_queues.lookup workflow_id with
  | none => st
  | some qs =>
    if qs.any (fun q => q.1 = qid) then
      { st with
        event_queues := st.event_queues.map (fun kv =>
          if kv.1 = workflow_id then (kv.1, removeFirstQueue qid kv.2) else kv) }
    else st

/-- The whole event_generator: the try body (the loop) followed by the
finally block, which runs on every exit of the loop — disconnect, raised
exception, or external finalization. -/
def event_generator (workflow_id : String) (qid : Nat) (steps : List LoopStep) (st : ApiState) :
    List SSEOut × ApiState :=
  let r := event_generator_loop workflow_id qid steps st
  (r.1, generator_cleanup workflow_id qid r.2)

/-- Example registry: one workflow w1 that has completed, with one attached
subscriber queue that has drained its events. -/
def exCompleted : ApiState :=
  { active_workflows := [("w1", { status := "completed" })],
    event_queues := [("w1", [(0, [])])],
    nextQueueId := 1 }

/-- Example registry: one workflow w1 in the terminal error state, with one
attached subscriber queue. -/
def exError : ApiState :=
  { active_workflows := [("w1", { status := "error", error := some "boom" })],
    event_queues := [("w1", [(0, [])])],
    nextQueueId := 1 }

/-- Example registry: one workflow w1 already cancelled, with one attached
subscriber queue. -/
def exCancelled : ApiState :=
  { active_workflows := [("w1", { status := "cancelled" })],
    event_queues := [("w1", [(0, [])])],
    nextQueueId := 1 }

/-- Example registry: one running workflow w1 with one attached subscriber
queue. -/
def exRunning : ApiState :=
  { active_workflows := [("w1", { status := "running" })],
    event_queues := [("w1", [(0, [])])],
    nextQueueId := 1 }

/-- Example registry: one running workflow w1 with no entry at all in
event_queues. -/
def exNoQueues : ApiState :=
  { active_workflows := [("w1", { status := "running" })],
    event_queues := [],
    nextQueueId := 0 }

/-- Example registry: one running workflow w1 whose event_queues entry holds
an empty list of queues. -/
def exEmptyBucket : ApiState :=
  { active_workflows := [("w1", { status := "running" })],
    event_queues := [("w1", [])],
    nextQueueId := 0 }

/-
Helper lemmas about association lists (Python dicts).
-/

theorem EventType.ofString_value (t : EventType) : EventType.ofString t.value = some t := by
  cases t <;> rfl

theorem lookup_map_update {κ β : Type} [BEq κ] [LawfulBEq κ] [DecidableEq κ]
    (k : κ) (f : β → β) :
    ∀ l : List (κ × β),
      List.lookup k (l.map (fun kv => if kv.1 = k then (kv.1, f kv.2) else kv)) =
        (List.lookup k l).map f
  | [] => rfl
  | (k1, v) :: rest => by
    by_cases h : k1 = k
    · subst h
      simp [List.lookup_cons_self]
    · have hb : (k == k1) = false := beq_false_of_ne (Ne.symm h)
      simp [h, List.lookup_cons, hb, lookup_map_update k f rest]

theorem lookup_append_of_none {κ β : Type} [BEq κ] [LawfulBEq κ] (k : κ) (v : β)
    (l : List (κ × β)) (h : List.lookup k l = none) :
    List.lookup k (l ++ [(k, v)]) = some v := by
  simp [List.lookup_append, h, List.lookup_cons_self]

theorem map_update_of_not_mem {κ β : Type} [DecidableEq κ] (k : κ) (f : β → β) :
    ∀ l : List (κ × β), k ∉ l.map Prod.fst →
      l.map (fun kv => if kv.1 = k then (kv.1, f kv.2) else kv) = l
  | [], _ => rfl
  | (k1, v) :: rest, h => by
    simp only [List.map_cons, List.mem_cons, not_or] at h
    simp [Ne.symm h.1, map_update_of_not_mem k f rest h.2]

theorem lookup_eq_none_of_not_mem {κ β : Type} [BEq κ] [LawfulBEq κ] (k : κ)
    (l : List (κ × β)) (h : k ∉ l.map Prod.fst) : List.lookup k l = none := by
  rw [List.lookup_eq_none_iff]
  intro p hp
  simp only [bne_iff_ne, ne_eq]
  intro hk
  exact h (List.mem_map.mpr ⟨p, hp, hk.symm⟩)

/-
Claim theorems.
-/

/-- C3: for every event e (any recognized kind, any JSON-compatible payload
tree, including STATE_DELTA patch payloads), decoding the encoding of e
yields an event structurally equal to e field by field:
BaseEvent.from_json(e.to_json()) == e. -/
theorem C3_event_roundtrip (e : BaseEvent) :
    BaseEvent.from_json (BaseEvent.to_json e) = .ok e := by
  obtain ⟨ty, p⟩ := e
  cases ty <;> rfl

/-- C10: decoding a dictionary that has a recognized type field but no
payload key succeeds and yields an event whose payload is the empty
mapping. -/
theorem C10_missing_payload_defaults_empty (fields : List (String × JValue)) (s : String)
    (ty : EventType)
    (h1 : fields.lookup "type" = some (.str s))
    (h2 : EventType.ofString s = some ty)
    (h3 : fields.lookup "payload" = none) :
    BaseEvent.from_dict (.obj fields) = .ok { type := ty, payload := .obj [] } := by
  simp [BaseEvent.from_dict, h1, h2, h3]

/-- Witness for C10 at a concrete dictionary carrying only a type field. -/
theorem C10_missing_payload_defaults_empty_witness :
    BaseEvent.from_dict (.obj [("type", .str "RUN_STARTED")]) =
      .ok { type := EventType.RUN_STARTED, payload := .obj [] } :=
  C10_missing_payload_defaults_empty [("type", .str "RUN_STARTED")] "RUN_STARTED"
    EventType.RUN_STARTED rfl rfl rfl

/-- C4 counterexample: a single frame that is syntactically valid JSON but
whose kind is not a recognized enumerant makes the SSE inbound sequence
terminate with an uncaught ValueError instead of being skipped, so the
claim that any undecodable frame is skipped is false. -/
theorem C4_counterexample :
    SSETransport.receive_events [.dataLine (.jsonText (.obj [("type", .str "BOGUS")]))] =
      .error (.valueError ("BOGUS is not a valid EventType")) := rfl

/-- C4 amended: a frame that is malformed JSON is skipped and the inbound
sequence continues, on both the SSE and the WebSocket transport; but a
frame that parses as JSON and then fails event decoding (unrecognized or
missing kind) raises an error outside the except clause, terminating the
whole stream with that error. -/
theorem C4_amended_frame_errors (s : String) (rest1 : List SSELine) (rest2 : List Wire)
    (fields : List (String × JValue)) (err : PyErr)
    (h1 : BaseEvent.from_dict (.obj fields) = .error err)
    (h2 : err ≠ PyErr.jsonDecodeError) :
    SSETransport.receive_events (.dataLine (.malformedText s) :: rest1) =
        SSETransport.receive_events rest1 ∧
      WebSocketTransport.receive_events (.malformedText s :: rest2) =
        WebSocketTransport.receive_events rest2 ∧
      SSETransport.receive_events (.dataLine (.jsonText (.obj fields)) :: rest1) =
        .error err ∧
      WebSocketTransport.receive_events (.jsonText (.obj fields) :: rest2) = .error err := by
  refine ⟨rfl, rfl, ?_, ?_⟩
  · simp only [SSETransport.receive_events, json_loads, h1]
  · cases err with
    | jsonDecodeError => exact absurd rfl h2
    | valueError m =>
      simp only [WebSocketTransport.receive_events, BaseEvent.from_json, json_loads,
        bind, Except.bind, h1]
    | keyError m =>
      simp only [WebSocketTransport.receive_events, BaseEvent.from_json, json_loads,
        bind, Except.bind, h1]
    | typeError m =>
      simp only [WebSocketTransport.receive_events, BaseEvent.from_json, json_loads,
        bind, Except.bind, h1]

/-- Witness for the C4 amended theorem at one malformed frame and one
valid-JSON frame with an unrecognized kind. -/
theorem C4_amended_frame_errors_witness :
    SSETransport.receive_events [.dataLine (.malformedText "oops")] =
        SSETransport.receive_events [] ∧
      WebSocketTransport.receive_events [.malformedText "oops"] =
        WebSocketTransport.receive_events [] ∧
      SSETransport.receive_events [.dataLine (.jsonText (.obj [("type", .str "BOGUS")]))] =
        .error (.valueError ("BOGUS is not a valid EventType")) ∧
      WebSocketTransport.receive_events [.jsonText (.obj [("type", .str "BOGUS")])] =
        .error (.valueError ("BOGUS is not a valid EventType")) :=
  C4_amended_frame_errors "oops" [] [] [("type", .str "BOGUS")]
    (.valueError ("BOGUS is not a valid EventType")) rfl (by decide)

/-- C1: the claim promises that every subscribe call — with filter None or
with a set of kinds — registers a fresh queue that then receives the
filtered subsequence; but the subscribers registry is a dict keyed by the
filter, and a Python set is unhashable, so the very first membership test
of subscribe raises TypeError for any set filter: the subscriber is never
registered.  This theorem evaluates the embedded subscribe at such a
failing input. -/
theorem C1_subscribe_set_filter_raises :
    EventBus.subscribe (some [EventType.RUN_STARTED]) emptyBus =
      .error (.typeError "unhashable type: set") := rfl

/-
Helper lemmas about the api-layer state.
-/

theorem active_workflows_emit_event (workflow_id event_type : String) (data : JValue)
    (now : Int) (st : ApiState) :
    (emit_event workflow_id event_type data now st).active_workflows = st.active_workflows := by
  unfold emit_event
  cases List.lookup workflow_id st.event_queues <;> rfl

theorem bucketOf_emit_event (st : ApiState) (workflow_id event_type : String) (data : JValue)
    (now : Int) (qs : List (Nat × List WireEvent))
    (h : bucketOf st workflow_id = some qs) :
    bucketOf (emit_event workflow_id event_type data now st) workflow_id =
      some (qs.map (fun q => (q.1, q.2 ++ [⟨workflow_id, event_type, now, data⟩]))) := by
  unfold bucketOf at h ⊢
  unfold emit_event
  rw [h]
  simp only []
  rw [lookup_map_update, h]
  rfl

theorem statusOf_setStatus (st : ApiState) (workflow_id s : String) (wd : WorkflowData)
    (h : st.active_workflows.lookup workflow_id = some wd) :
    statusOf (setStatus workflow_id s st) workflow_id = some s := by
  unfold statusOf setStatus
  simp only []
  rw [lookup_map_update workflow_id (fun wd0 => { wd0 with status := s }) st.active_workflows, h]
  rfl

theorem subscribe_spec (st : ApiState) (workflow_id : String) (wd : WorkflowData) (now : Int)
    (h1 : st.active_workflows.lookup workflow_id = some wd)
    (h2 : st.nextQueueId ∉ queueIdsOf st workflow_id) :
    ∃ st2, subscribe_to_workflow_events workflow_id now st = .ok (st.nextQueueId, st2) ∧
      queueContents st2 workflow_id st.nextQueueId =
        some [⟨workflow_id, "connection_established", now,
          .obj [("status", .str wd.status)]⟩] := by
  refine ⟨putToQueue workflow_id st.nextQueueId
      ⟨workflow_id, "connection_established", now, .obj [("status", .str wd.status)]⟩
      (addQueue workflow_id st.nextQueueId { st with nextQueueId := st.nextQueueId + 1 }),
    ?_, ?_⟩
  · unfold subscribe_to_workflow_events
    rw [h1]
  · unfold queueContents bucketOf putToQueue addQueue
    dsimp only
    cases hb : List.lookup workflow_id st.event_queues with
    | none =>
      rw [lookup_map_update,
        lookup_append_of_none workflow_id [(st.nextQueueId, [])] st.event_queues hb]
      simp
    | some qs =>
      have hfresh : st.nextQueueId ∉ qs.map Prod.fst := by
        unfold queueIdsOf bucketOf at h2
        rw [hb] at h2
        simpa using h2
      simp only []
      rw [lookup_map_update,
        lookup_map_update workflow_id (fun b => b ++ [(st.nextQueueId, ([] : List WireEvent))])
          st.event_queues,
        hb]
      simp only [Option.map_some']
      rw [List.map_append,
        map_update_of_not_mem st.nextQueueId
          (fun b => b ++ [(⟨workflow_id, "connection_established", now,
            .obj [("status", .str wd.status)]⟩ : WireEvent)]) qs hfresh]
      have hnone : List.lookup st.nextQueueId qs = none :=
        lookup_eq_none_of_not_mem st.nextQueueId qs hfresh
      simp [List.lookup_append, hnone]

/-- C7: for every streaming subscription opened on an existing workflow,
the first event delivered into the fresh subscriber queue is the synthetic
connection_established event carrying the current workflow status, in
every state including after completion. -/
theorem C7_first_event_connection_established (st : ApiState) (workflow_id : String)
    (wd : WorkflowData) (now : Int)
    (h1 : st.active_workflows.lookup workflow_id = some wd)
    (h2 : st.nextQueueId ∉ queueIdsOf st workflow_id) :
    ∃ st2, subscribe_to_workflow_events workflow_id now st = .ok (st.nextQueueId, st2) ∧
      queueContents st2 workflow_id st.nextQueueId =
        some [⟨workflow_id, "connection_established", now,
          .obj [("status", .str wd.status)]⟩] :=
  subscribe_spec st workflow_id wd now h1 h2

/-- Witness for C7: subscribing to a workflow that has already completed
still yields the connection_established event with the completed status. -/
theorem C7_first_event_connection_established_witness :
    ∃ st2, subscribe_to_workflow_events "w1" 5 exCompleted = .ok (1, st2) ∧
      queueContents st2 "w1" 1 =
        some [⟨"w1", "connection_established", 5, .obj [("status", .str "completed")]⟩] :=
  C7_first_event_connection_established exCompleted "w1" { status := "completed" } 5 rfl
    (by decide)

/-- C2 counterexample: a feedback submission to a workflow in the completed
state is accepted — the route returns a success response and puts a
feedback_submitted event into the subscriber queue — because the feedback
route has no status precondition, so the claim that feedback is rejected
with a 400 outside running and waiting_for_input is false. -/
theorem C2_counterexample :
    submit_agent_feedback "w1" "rating" (.num 5) (.ok ()) 7 exCompleted =
      .ok (⟨"w1", "completed", "Feedback submitted successfully"⟩,
        { active_workflows := [("w1", { status := "completed" })],
          event_queues := [("w1", [(0, [⟨"w1", "feedback_submitted", 7,
            .obj [("feedback_type", .str "rating"), ("feedback_data", .num 5)]⟩])])],
          nextQueueId := 1 }) := rfl

/-- C2 amended: in any status outside running and waiting_for_input, an
action submission is rejected with a 400 precondition failure before the
engine is called and before any event is emitted; a feedback submission,
however, carries no status precondition — it is forwarded to the engine
from any state and, on engine success, emits a feedback_submitted event to
every subscriber queue and returns a success response. -/
theorem C2_amended_action_rejected_feedback_not (st : ApiState) (workflow_id : String)
    (wd : WorkflowData) (atype ftype : String) (adata fdata : JValue)
    (eng : Except String Unit) (now : Int) (qs : List (Nat × List WireEvent))
    (h1 : st.active_workflows.lookup workflow_id = some wd)
    (h2 : ¬ (wd.status = "running" ∨ wd.status = "waiting_for_input"))
    (h3 : bucketOf st workflow_id = some qs) :
    submit_agent_action workflow_id atype adata eng now st =
        .error ⟨400, "Workflow is in " ++ wd.status ++ " state and cannot receive actions"⟩ ∧
      ∃ st2,
        submit_agent_feedback workflow_id ftype fdata (.ok ()) now st =
            .ok (⟨workflow_id, wd.status, "Feedback submitted successfully"⟩, st2) ∧
          bucketOf st2 workflow_id = some (qs.map (fun q => (q.1, q.2 ++
            [⟨workflow_id, "feedback_submitted", now,
              .obj [("feedback_type", .str ftype), ("feedback_data", fdata)]⟩]))) := by
  constructor
  · simp [submit_agent_action, h1, h2]
  · refine ⟨emit_event workflow_id "feedback_submitted"
        (.obj [("feedback_type", .str ftype), ("feedback_data", fdata)]) now st, ?_, ?_⟩
    · simp [submit_agent_feedback, h1]
    · exact bucketOf_emit_event st workflow_id "feedback_submitted"
        (.obj [("feedback_type", .str ftype), ("feedback_data", fdata)]) now qs h3

/-- Witness for the C2 amended theorem on a completed workflow with one
subscriber queue. -/
theorem C2_amended_action_rejected_feedback_not_witness :
    submit_agent_action "w1" "choose" (.num 1) (.ok ()) 7 exCompleted =
        .error ⟨400, "Workflow is in completed state and cannot receive actions"⟩ ∧
      ∃ st2,
        submit_agent_feedback "w1" "rating" (.num 5) (.ok ()) 7 exCompleted =
            .ok (⟨"w1", "completed", "Feedback submitted successfully"⟩, st2) ∧
          bucketOf st2 "w1" = some [(0, [⟨"w1", "feedback_submitted", 7,
            .obj [("feedback_type", .str "rating"), ("feedback_data", .num 5)]⟩])] :=
  C2_amended_action_rejected_feedback_not exCompleted "w1" { status := "completed" }
    "choose" "rating" (.num 1) (.num 5) (.ok ()) 7 [(0, [])] rfl (by decide) rfl

/-- C5 counterexample: with workflow w1 already in the terminal error state,
an engine-native event handled by _handle_workflow_event is still delivered
into the subscriber queue, so the claim that no event is delivered once the
state is error is false. -/
theorem C5_counterexample :
    statusOf exError "w1" = some "error" ∧
      queueContents (handle_workflow_event "w1" { type := some "TEXT_MESSAGE_START" } 9 exError)
          "w1" 0 =
        some [⟨"w1", "TEXT_MESSAGE_START", 9,
          .obj [("workflow_id", .str "w1"), ("event_type", .str "TEXT_MESSAGE_START"),
                ("timestamp", .null), ("data", .obj [])]⟩] := ⟨rfl, rfl⟩

/-- C5 amended: forwarding of engine events never consults the workflow
status — even when the workflow is already in the terminal error state,
_handle_workflow_event wraps the engine event and appends it to every
subscriber queue registered for the workflow id. -/
theorem C5_amended_forwarding_ignores_status (st : ApiState) (workflow_id : String)
    (ev : EngineEvent) (now : Int) (qs : List (Nat × List WireEvent))
    (h1 : statusOf st workflow_id = some "error")
    (h2 : bucketOf st workflow_id = some qs) :
    bucketOf (handle_workflow_event workflow_id ev now st) workflow_id =
      some (qs.map (fun q => (q.1, q.2 ++ [⟨workflow_id, ev.type.getD "unknown", now,
        .obj [("workflow_id", .str workflow_id),
              ("event_type", .str (ev.type.getD "unknown")),
              ("timestamp", optIntToJ ev.timestamp),
              ("data", ev.data.getD (.obj []))]⟩]))) := by
  unfold handle_workflow_event
  exact bucketOf_emit_event st workflow_id (ev.type.getD "unknown")
    (.obj [("workflow_id", .str workflow_id),
           ("event_type", .str (ev.type.getD "unknown")),
           ("timestamp", optIntToJ ev.timestamp),
           ("data", ev.data.getD (.obj []))]) now qs h2

/-- Witness for the C5 amended theorem on a workflow in the error state
with one subscriber queue. -/
theorem C5_amended_forwarding_ignores_status_witness :
    bucketOf (handle_workflow_event "w1" { type := some "TOOL_CALL_START" } 4 exError) "w1" =
      some [(0, [⟨"w1", "TOOL_CALL_START", 4,
        .obj [("workflow_id", .str "w1"), ("event_type", .str "TOOL_CALL_START"),
              ("timestamp", .null), ("data", .obj [])]⟩])] :=
  C5_amended_forwarding_ignores_status exError "w1" { type := some "TOOL_CALL_START" } 4
    [(0, [])] rfl rfl

/-- C6 counterexample: a cancel request for workflow w1 that is already in
the cancelled state is not rejected — the engine cancel is invoked again
and, since it succeeds, the route returns success and emits another
cancelled event into the subscriber queue — so the claim that a second
cancel is rejected without invoking the engine and without emitting is
false. -/
theorem C6_counterexample :
    cancel_workflow "w1" (.ok ()) 3 exCancelled =
      .ok (⟨"w1", "cancelled", "Workflow cancelled successfully"⟩,
        { active_workflows := [("w1", { status := "cancelled" })],
          event_queues := [("w1", [(0, [⟨"w1", "cancelled", 3,
            .obj [("status", .str "cancelled")]⟩])])],
          nextQueueId := 1 }) := rfl

/-- C6 amended: a cancel request on any known workflow — terminal or not —
always invokes the engine cancel; when the engine raises, the route fails
with a 500 carrying the engine message and the state is untouched; when the
engine succeeds, the status is set to cancelled, a cancelled event is
emitted to every subscriber queue, and a success response is returned, even
if the workflow was already terminal. -/
theorem C6_amended_cancel_always_calls_engine (st : ApiState) (workflow_id : String)
    (wd : WorkflowData) (e : String) (now : Int) (qs : List (Nat × List WireEvent))
    (h1 : st.active_workflows.lookup workflow_id = some wd)
    (h2 : bucketOf st workflow_id = some qs) :
    cancel_workflow workflow_id (.error e) now st = .error ⟨500, e⟩ ∧
      ∃ st2, cancel_workflow workflow_id (.ok ()) now st =
          .ok (⟨workflow_id, "cancelled", "Workflow cancelled successfully"⟩, st2) ∧
        statusOf st2 workflow_id = some "cancelled" ∧
        bucketOf st2 workflow_id = some (qs.map (fun q => (q.1, q.2 ++
          [⟨workflow_id, "cancelled", now, .obj [("status", .str "cancelled")]⟩]))) := by
  constructor
  · simp [cancel_workflow, h1]
  · refine ⟨emit_event workflow_id "cancelled" (.obj [("status", .str "cancelled")]) now
      (setStatus workflow_id "cancelled" st), ?_, ?_, ?_⟩
    · simp [cancel_workflow, h1]
    · have ha := active_workflows_emit_event workflow_id "cancelled"
        (.obj [("status", .str "cancelled")]) now (setStatus workflow_id "cancelled" st)
      have hs := statusOf_setStatus st workflow_id "cancelled" wd h1
      unfold statusOf at hs ⊢
      rw [ha]
      exact hs
    · exact bucketOf_emit_event (setStatus workflow_id "cancelled" st) workflow_id "cancelled"
        (.obj [("status", .str "cancelled")]) now qs h2

/-- Witness for the C6 amended theorem on a running workflow with one
subscriber queue. -/
theorem C6_amended_cancel_always_calls_engine_witness :
    cancel_workflow "w1" (.error "engine down") 3 exRunning = .error ⟨500, "engine down"⟩ ∧
      ∃ st2, cancel_workflow "w1" (.ok ()) 3 exRunning =
          .ok (⟨"w1", "cancelled", "Workflow cancelled successfully"⟩, st2) ∧
        statusOf st2 "w1" = some "cancelled" ∧
        bucketOf st2 "w1" =
          some [(0, [⟨"w1", "cancelled", 3, .obj [("status", .str "cancelled")]⟩])] :=
  C6_amended_cancel_always_calls_engine exRunning "w1" { status := "running" } "engine down" 3
    [(0, [])] rfl rfl

/-
Helper lemmas for the streaming-loop cleanup.
-/

theorem map_fst_update {κ β : Type} [DecidableEq κ] (k : κ) (f : β → β) (l : List (κ × β)) :
    (l.map (fun q => if q.1 = k then (q.1, f q.2) else q)).map Prod.fst = l.map Prod.fst := by
  rw [List.map_map]
  congr 1
  funext q
  by_cases h : q.1 = k <;> simp [Function.comp, h]

theorem queueIdsOf_update_inner (w : String)
    (f : List (Nat × List WireEvent) → List (Nat × List WireEvent))
    (hf : ∀ qs, (f qs).map Prod.fst = qs.map Prod.fst) (st : ApiState) :
    queueIdsOf
        { st with event_queues := st.event_queues.map (fun kv =>
            if kv.1 = w then (kv.1, f kv.2) else kv) } w =
      queueIdsOf st w := by
  unfold queueIdsOf bucketOf
  dsimp only
  rw [lookup_map_update]
  cases List.lookup w st.event_queues with
  | none => rfl
  | some qs => simp [hf]

theorem queueIdsOf_popQueue (w : String) (qid : Nat) (st : ApiState) :
    queueIdsOf (popQueue w qid st).2 w = queueIdsOf st w := by
  unfold popQueue
  cases hc : queueContents st w qid with
  | none => rfl
  | some l =>
    cases l with
    | nil => rfl
    | cons ev tl =>
      exact queueIdsOf_update_inner w
        (fun qs => qs.map (fun q => if q.1 = qid then (q.1, q.2.drop 1) else q))
        (fun qs => map_fst_update qid (fun b => b.drop 1) qs) st

theorem queueIdsOf_event_generator_loop (w : String) (qid : Nat) :
    ∀ (steps : List LoopStep) (st : ApiState),
      queueIdsOf (event_generator_loop w qid steps st).2 w = queueIdsOf st w
  | [], _ => rfl
  | .disconnectNow :: _, _ => rfl
  | .raiseErr _ :: _, _ => rfl
  | .poll :: rest, st => by
    unfold event_generator_loop
    cases hp : popQueue w qid st with
    | mk o st2 =>
      have h2 : queueIdsOf st2 w = queueIdsOf st w := by
        have h := queueIdsOf_popQueue w qid st
        rw [hp] at h
        exact h
      cases o with
      | some ev =>
        simp only []
        rw [queueIdsOf_event_generator_loop w qid rest st2, h2]
      | none =>
        simp only []
        rw [queueIdsOf_event_generator_loop w qid rest st2, h2]

theorem map_fst_removeFirstQueue (qid : Nat) :
    ∀ qs : List (Nat × List WireEvent),
      (removeFirstQueue qid qs).map Prod.fst = (qs.map Prod.fst).erase qid
  | [] => rfl
  | q :: rest => by
    by_cases h : q.1 = qid
    · simp [removeFirstQueue, h, List.erase_cons_head]
    · have hb : (q.1 == qid) = false := beq_false_of_ne h
      simp [removeFirstQueue, h, List.erase_cons_tail, hb,
        map_fst_removeFirstQueue qid rest]

theorem queueIdsOf_generator_cleanup (w : String) (qid : Nat) (st : ApiState) :
    queueIdsOf (generator_cleanup w qid st) w = (queueIdsOf st w).erase qid := by
  unfold generator_cleanup
  cases hb : List.lookup w st.event_queues with
  | none =>
    unfold queueIdsOf bucketOf
    rw [hb]
    rfl
  | some qs =>
    by_cases ha : qs.any (fun q => q.1 = qid) = true
    · simp only [ha, if_true]
      unfold queueIdsOf bucketOf
      dsimp only
      rw [lookup_map_update w (removeFirstQueue qid) st.event_queues, hb]
      simp [map_fst_removeFirstQueue]
    · simp only []
      rw [if_neg ha]
      unfold queueIdsOf bucketOf
      rw [hb]
      simp only [Option.getD_some]
      have hmem : qid ∉ qs.map Prod.fst := by
        intro hm
        apply ha
        rcases List.mem_map.mp hm with ⟨q, hq, hfst⟩
        exact List.any_eq_true.mpr ⟨q, hq, by simp [hfst]⟩
      rw [List.erase_of_not_mem hmem]

/-- C8: exiting the streaming loop for any reason — disconnect, exception,
or external finalization of the generator — runs the cleanup exactly once:
after event_generator, the queue registry of the workflow equals the
registry before with the first (and only) occurrence of the subscriber
queue removed, whatever the loop iterations did. -/
theorem C8_cleanup_exactly_once (workflow_id : String) (qid : Nat) (steps : List LoopStep)
    (st : ApiState) :
    queueIdsOf (event_generator workflow_id qid steps st).2 workflow_id =
      (queueIdsOf st workflow_id).erase qid := by
  unfold event_generator
  dsimp only
  rw [queueIdsOf_generator_cleanup, queueIdsOf_event_generator_loop]

/-
Helper lemma for the emit no-op cases of C9.
-/

theorem map_inner_eq_self_of_empty {κ β : Type} [BEq κ] [LawfulBEq κ] [DecidableEq κ]
    (k : κ) (g : β → β) :
    ∀ l : List (κ × List β), (l.map Prod.fst).Nodup → List.lookup k l = some [] →
      l.map (fun kv => if kv.1 = k then (kv.1, kv.2.map g) else kv) = l
  | [], _, _ => rfl
  | (k1, v) :: rest, hkeys, hl => by
    simp only [List.map_cons, List.nodup_cons] at hkeys
    by_cases h : k1 = k
    · subst h
      rw [List.lookup_cons_self] at hl
      injection hl with hv
      subst hv
      simp only [List.map_cons, List.map_nil]
      rw [map_update_of_not_mem k1 (fun b => b.map g) rest hkeys.1]
      simp
    · have hb : (k == k1) = false := beq_false_of_ne (Ne.symm h)
      simp only [List.lookup_cons, hb] at hl
      simp [h, map_inner_eq_self_of_empty k g rest hkeys.2 hl]

/-- C9: emitting an event for a workflow id that has no entry in the queue
registry, or whose registered queue list is empty, is a silent no-op — the
state is returned unchanged, so the event is delivered to no one and not
retained — and a subscriber attaching afterwards starts from a fresh queue
holding only the synthetic connection_established event, never events
published before its subscription. -/
theorem C9_emit_without_subscribers (st1 st2 st3 : ApiState) (workflow_id : String)
    (event_type : String) (data : JValue) (now : Int) (wd : WorkflowData)
    (h1 : st1.event_queues.lookup workflow_id = none)
    (h2 : st2.event_queues.lookup workflow_id = some [])
    (h2n : (st2.event_queues.map Prod.fst).Nodup)
    (h3 : st3.active_workflows.lookup workflow_id = some wd)
    (h4 : st3.nextQueueId ∉ queueIdsOf st3 workflow_id) :
    emit_event workflow_id event_type data now st1 = st1 ∧
      emit_event workflow_id event_type data now st2 = st2 ∧
      ∃ stSub, subscribe_to_workflow_events workflow_id now st3 =
          .ok (st3.nextQueueId, stSub) ∧
        queueContents stSub workflow_id st3.nextQueueId =
          some [⟨workflow_id, "connection_established", now,
            .obj [("status", .str wd.status)]⟩] := by
  refine ⟨?_, ?_, subscribe_spec st3 workflow_id wd now h3 h4⟩
  · unfold emit_event
    rw [h1]
  · unfold emit_event
    rw [h2]
    simp only []
    rw [map_inner_eq_self_of_empty workflow_id
      (fun q => (q.1, q.2 ++ [(⟨workflow_id, event_type, now, data⟩ : WireEvent)]))
      st2.event_queues h2n h2]

/-- Witness for C9: no-op emits on a registry without the id and on a
registry with an empty queue list, and a later subscriber seeing only the
synthetic connection event. -/
theorem C9_emit_without_subscribers_witness :
    emit_event "w1" "status_update" (.obj []) 2 exNoQueues = exNoQueues ∧
      emit_event "w1" "status_update" (.obj []) 2 exEmptyBucket = exEmptyBucket ∧
      ∃ stSub, subscribe_to_workflow_events "w1" 2 exRunning = .ok (1, stSub) ∧
        queueContents stSub "w1" 1 =
          some [⟨"w1", "connection_established", 2, .obj [("status", .str "running")]⟩] :=
  C9_emit_without_subscribers exNoQueues exEmptyBucket exRunning "w1" "status_update"
    (.obj []) 2 { status := "running" } rfl rfl (by decide) rfl (by decide)

end Citadel
